import Mathlib

/-!
Verification of the browser cookie extraction and matching engine of `rurl`
(src/browser/mod.rs, src/browser/chrome.rs, src/browser/chrome/linux.rs,
src/browser/chrome/windows.rs, src/browser/firefox/macos.rs,
src/browser/safari.rs), as a shallow embedding.

Rust strings are modelled as their UTF-8 byte sequences (`List Nat`): Rust's
`&str` indexing, slicing, `starts_with`/`ends_with` are byte-based, so this is
the faithful representation.  `str::trim` and `str::to_lowercase` are
character-based Unicode operations; they are modelled here at the byte level
(ASCII whitespace, ASCII case-folding), which coincides with the source on all
ASCII data, and every concrete input in this development is ASCII.

Effectful parts (SQLite queries, the filesystem, the OS keyrings, the system
clock) are factored out in the usual way: extraction pipelines are modelled as
pure functions of the already-fetched row lists / file bytes / keyring
password, and `cookies_for_url` takes the current Unix time as an explicit
argument where the source calls `unix_timestamp_seconds()`.  `HashMap` is
modelled as an association list in iteration order; the properties proved here
do not depend on that order.
-/

/-- Byte sequence of an ASCII Lean string literal, used to build concrete
inputs (all concrete inputs in this file are ASCII, where one char = one
byte). -/
def String.bytes (s : String) : List Nat := s.toList.map Char.toNat

namespace Rurl

/-- Rust string as its UTF-8 byte sequence. -/
abbrev RStr := List Nat

/-- ASCII whitespace, the ASCII fragment of Rust's `char::is_whitespace`. -/
def isAsciiWhitespace (b : Nat) : Bool :=
  b = 32 || b = 9 || b = 10 || b = 13 || b = 11 || b = 12

/-- Byte-level model of `str::trim` (ASCII fragment). -/
def asciiTrim (s : RStr) : RStr :=
  ((s.dropWhile isAsciiWhitespace).reverse.dropWhile isAsciiWhitespace).reverse

/-- Byte-level model of `str::to_lowercase` (ASCII fragment). -/
def asciiLower (s : RStr) : RStr :=
  s.map fun b => if 65 ≤ b ∧ b ≤ 90 then b + 32 else b

/-- The byte of the character `.`. -/
def dotByte : Nat := 46

/-- The byte of the character `/`. -/
def slashByte : Nat := 47

/-- The cookie record of src/browser/mod.rs (`struct Cookie`). -/
structure Cookie where
  name : RStr
  value : RStr
  domain : RStr
  path : RStr
  secure : Bool
  http_only : Bool
  expires : Option Int
deriving DecidableEq

/-- `CookieStore = HashMap<String, Vec<Cookie>>`, modelled as an association
list of domain buckets in iteration order. -/
abbrev CookieStore := List (RStr × List Cookie)

/-- `store.entry(cookie.domain.clone()).or_default().push(cookie)`: append to
the existing bucket of the cookie's domain, or add a fresh bucket. -/
def storeInsert (store : CookieStore) (c : Cookie) : CookieStore :=
  match store with
  | [] => [(c.domain, [c])]
  | (k, v) :: rest =>
    if k = c.domain then (k, v ++ [c]) :: rest else (k, v) :: storeInsert rest c

/-- `is_expired` from src/browser/mod.rs lines 113-122. -/
def is_expired (expires : Option Int) (now : Int) : Bool :=
  match expires with
  | none => false
  | some e => if e > 100000000000 then false else decide (e ≤ now)

/-- `domain_matches` from src/browser/mod.rs lines 124-138.
`trim_start_matches('.')` removes every leading dot, hence `dropWhile`. -/
def domain_matches (host : RStr) (cookieDomain : RStr) : Bool :=
  let cd := asciiLower (asciiTrim cookieDomain)
  if cd.isEmpty then false
  else if cd.headD 0 = dotByte then
    let domain := cd.dropWhile (· = dotByte)
    if domain.isEmpty then false
    else host = domain || (dotByte :: domain).isSuffixOf host
  else decide (host = cd)

/-- `path_matches` from src/browser/mod.rs lines 140-153.
`request_path[cookie_path.len()..]` is Rust byte slicing, hence `List.drop`. -/
def path_matches (requestPath : RStr) (cookiePath : RStr) : Bool :=
  let cp := if cookiePath.isEmpty then [slashByte] else cookiePath
  if requestPath = cp then true
  else if !(cp.isPrefixOf requestPath) then false
  else cp.getLast? = some slashByte || (requestPath.drop cp.length).headD 0 = slashByte

/-- The parts of `url::Url` read by `cookies_for_url`: `host_str()`, `path()`,
`scheme()`. -/
structure Url where
  scheme : RStr
  host : Option RStr
  path : RStr

/-- The reject-filter chain in the body of the `cookies_for_url` loop
(src/browser/mod.rs lines 87-98): a cookie survives when none of the four
`continue`s fires. -/
def cookieAccepted (isHttps : Bool) (now : Int) (host : RStr) (path : RStr)
    (c : Cookie) : Bool :=
  !(c.secure && !isHttps) && !is_expired c.expires now &&
    domain_matches host c.domain && path_matches path c.path

/-- `cookies_for_url` from src/browser/mod.rs lines 75-103, with the value of
`unix_timestamp_seconds()` passed explicitly as `now`. -/
def cookies_for_url (store : CookieStore) (url : Url) (now : Int) : List Cookie :=
  match url.host with
  | none => []
  | some h =>
    let host := asciiLower h
    let isHttps := url.scheme = "https".bytes
    (store.map Prod.snd).flatMap fun cookies =>
      cookies.filter (cookieAccepted isHttps now host url.path)

/-- `cookies_to_header` from src/browser/mod.rs lines 66-72. -/
def cookies_to_header (cookies : List Cookie) : RStr :=
  match cookies with
  | [] => []
  | c :: rest =>
    (rest.foldl (fun acc k => acc ++ "; ".bytes ++ k.name ++ "=".bytes ++ k.value)
      (c.name ++ "=".bytes ++ c.value))

/-! Claim C2: spec-side reading of the domain-match rule. -/

/-- The domain-match rule exactly as claim C2 states it: after trimming and
lower-casing `d`, if `d` starts with `.` then the dot-stripped `d` must equal
`h` or `h` must end with `"." + d`; otherwise `h` must equal `d` exactly.
(No non-emptiness conditions appear in the claim.) -/
def specDomainMatches (host : RStr) (cookieDomain : RStr) : Bool :=
  let cd := asciiLower (asciiTrim cookieDomain)
  if cd.headD 0 = dotByte then
    let domain := cd.dropWhile (· = dotByte)
    host = domain || (dotByte :: domain).isSuffixOf host
  else decide (host = cd)

/-- Claim C2 as amended: additionally, the trimmed and lower-cased `d` must be
non-empty, and in the leading-dot case its dot-stripped form must be non-empty;
otherwise `domain_matches` is false. -/
def specDomainMatchesAmended (host : RStr) (cookieDomain : RStr) : Bool :=
  let cd := asciiLower (asciiTrim cookieDomain)
  if cd.headD 0 = dotByte then
    let domain := cd.dropWhile (· = dotByte)
    !domain.isEmpty && (host = domain || (dotByte :: domain).isSuffixOf host)
  else !cd.isEmpty && decide (host = cd)

/-! Claim C3: spec-side reading of the path-match rule. -/

/-- The path-match rule exactly as claim C3 states it: with an empty cookie
path treated as `/`, the paths match iff `p == c`, or `p` starts with `c` and
(`c` ends with `/` or the byte of `p` immediately after the prefix `c` is
`/`). -/
def specPathMatches (requestPath : RStr) (cookiePath : RStr) : Bool :=
  let cp := if cookiePath.isEmpty then [slashByte] else cookiePath
  requestPath = cp ||
    (cp.isPrefixOf requestPath &&
      (cp.getLast? = some slashByte ||
        (requestPath.drop cp.length).headD 0 = slashByte))

/-! The error type of src/error.rs, restricted to the variants the cookie
engine produces. -/

/-- `RurlError` variants used by the browser-cookie core. -/
inductive RurlError where
  | FileNotFound (msg : String)
  | BrowserCookie (msg : String)
  | Config (msg : String)
  | Unsupported (msg : String)
deriving DecidableEq

/-! Strict UTF-8 validation, the model of Rust's `String::from_utf8`
(which returns the same bytes on success, so a successfully decoded `String`
is represented by its byte list itself). -/

/-- Whether a byte sequence is valid UTF-8 in the strict sense of Rust's
`String::from_utf8` (RFC 3629: no overlongs, no surrogates, max U+10FFFF). -/
def utf8Valid : List Nat → Bool
  | [] => true
  | b0 :: rest =>
    if b0 < 128 then utf8Valid rest
    else if 194 ≤ b0 ∧ b0 ≤ 223 then
      match rest with
      | b1 :: rest2 => if 128 ≤ b1 ∧ b1 ≤ 191 then utf8Valid rest2 else false
      | [] => false
    else if b0 = 224 then
      match rest with
      | b1 :: b2 :: rest2 =>
        if (160 ≤ b1 ∧ b1 ≤ 191) ∧ (128 ≤ b2 ∧ b2 ≤ 191) then utf8Valid rest2 else false
      | _ => false
    else if (225 ≤ b0 ∧ b0 ≤ 236) ∨ b0 = 238 ∨ b0 = 239 then
      match rest with
      | b1 :: b2 :: rest2 =>
        if (128 ≤ b1 ∧ b1 ≤ 191) ∧ (128 ≤ b2 ∧ b2 ≤ 191) then utf8Valid rest2 else false
      | _ => false
    else if b0 = 237 then
      match rest with
      | b1 :: b2 :: rest2 =>
        if (128 ≤ b1 ∧ b1 ≤ 159) ∧ (128 ≤ b2 ∧ b2 ≤ 191) then utf8Valid rest2 else false
      | _ => false
    else if b0 = 240 then
      match rest with
      | b1 :: b2 :: b3 :: rest2 =>
        if ((144 ≤ b1 ∧ b1 ≤ 191) ∧ (128 ≤ b2 ∧ b2 ≤ 191)) ∧ (128 ≤ b3 ∧ b3 ≤ 191) then
          utf8Valid rest2
        else false
      | _ => false
    else if 241 ≤ b0 ∧ b0 ≤ 243 then
      match rest with
      | b1 :: b2 :: b3 :: rest2 =>
        if ((128 ≤ b1 ∧ b1 ≤ 191) ∧ (128 ≤ b2 ∧ b2 ≤ 191)) ∧ (128 ≤ b3 ∧ b3 ≤ 191) then
          utf8Valid rest2
        else false
      | _ => false
    else if b0 = 244 then
      match rest with
      | b1 :: b2 :: b3 :: rest2 =>
        if ((128 ≤ b1 ∧ b1 ≤ 143) ∧ (128 ≤ b2 ∧ b2 ≤ 191)) ∧ (128 ≤ b3 ∧ b3 ≤ 191) then
          utf8Valid rest2
        else false
      | _ => false
    else false

/-! SHA-1, HMAC-SHA1 and PBKDF2, the primitives behind `derive_key`
(`pbkdf2_hmac::<Sha1>` in src/browser/chrome/linux.rs).  Words are naturals
reduced mod 2^32; recursion is fuel-based so that every function reduces by
kernel evaluation. -/

/-- Reduce to a 32-bit word. -/
def w32 (x : Nat) : Nat := x % 4294967296

/-- 32-bit left rotation. -/
def rotl32 (n x : Nat) : Nat := ((x <<< n) ||| (x >>> (32 - n))) % 4294967296

/-- Big-endian bytes to 32-bit words (complete 4-byte groups). -/
def bytesToWordsBE : List Nat → List Nat
  | b0 :: b1 :: b2 :: b3 :: rest =>
    (((b0 <<< 24) ||| (b1 <<< 16)) ||| ((b2 <<< 8) ||| b3)) :: bytesToWordsBE rest
  | _ => []

/-- One 32-bit word to big-endian bytes. -/
def wordToBytesBE (w : Nat) : List Nat :=
  [(w >>> 24) % 256, (w >>> 16) % 256, (w >>> 8) % 256, w % 256]

/-- SHA-1 message padding. -/
def sha1Pad (msg : List Nat) : List Nat :=
  let len := msg.length
  let bits := len * 8
  let zeros := (119 - len % 64) % 64
  msg ++ [128] ++ List.replicate zeros 0 ++
    [(bits >>> 56) % 256, (bits >>> 48) % 256, (bits >>> 40) % 256,
     (bits >>> 32) % 256, (bits >>> 24) % 256, (bits >>> 16) % 256,
     (bits >>> 8) % 256, bits % 256]

/-- Extend the 16-word message schedule, one word per unit of fuel. -/
def sha1ExpandFrom (acc : List Nat) : Nat → List Nat
  | 0 => acc
  | f + 1 =>
    let n := acc.length
    let w := rotl32 1 (((acc.getD (n - 3) 0) ^^^ (acc.getD (n - 8) 0)) ^^^
      ((acc.getD (n - 14) 0) ^^^ (acc.getD (n - 16) 0)))
    sha1ExpandFrom (acc ++ [w]) f

/-- SHA-1 round function. -/
def sha1F (t b c d : Nat) : Nat :=
  if t < 20 then (b &&& c) ||| ((b ^^^ 4294967295) &&& d)
  else if t < 40 then (b ^^^ c) ^^^ d
  else if t < 60 then ((b &&& c) ||| (b &&& d)) ||| (c &&& d)
  else (b ^^^ c) ^^^ d

/-- SHA-1 round constants. -/
def sha1K (t : Nat) : Nat :=
  if t < 20 then 1518500249
  else if t < 40 then 1859775393
  else if t < 60 then 2400959708
  else 3395469782

/-- One SHA-1 round on the five-word state. -/
def sha1Step (st : Nat × Nat × Nat × Nat × Nat) (tw : Nat × Nat) :
    Nat × Nat × Nat × Nat × Nat :=
  let (a, b, c, d, e) := st
  let (t, w) := tw
  let temp := w32 (rotl32 5 a + sha1F t b c d + e + sha1K t + w)
  (temp, a, rotl32 30 b, c, d)

/-- SHA-1 compression of one 64-byte block. -/
def sha1Compress (h : List Nat) (block : List Nat) : List Nat :=
  let ws := sha1ExpandFrom (bytesToWordsBE block) 64
  let h0 := h.getD 0 0
  let h1 := h.getD 1 0
  let h2 := h.getD 2 0
  let h3 := h.getD 3 0
  let h4 := h.getD 4 0
  let (a, b, c, d, e) :=
    ((List.range 80).zip ws).foldl sha1Step (h0, h1, h2, h3, h4)
  [w32 (h0 + a), w32 (h1 + b), w32 (h2 + c), w32 (h3 + d), w32 (h4 + e)]

/-- Fold SHA-1 compression over consecutive 64-byte blocks. -/
def sha1Blocks (fuel : Nat) (h : List Nat) (data : List Nat) : List Nat :=
  match fuel with
  | 0 => h
  | f + 1 =>
    match data with
    | [] => h
    | _ => sha1Blocks f (sha1Compress h (data.take 64)) (data.drop 64)

/-- SHA-1 digest (20 bytes). -/
def sha1 (msg : List Nat) : List Nat :=
  let padded := sha1Pad msg
  (sha1Blocks padded.length
    [1732584193, 4023233417, 2562383102, 271733878, 3285377520] padded).flatMap
    wordToBytesBE

/-- Pointwise XOR of byte sequences. -/
def xorBytes (a b : List Nat) : List Nat := List.zipWith Nat.xor a b

/-- HMAC-SHA1. -/
def hmacSha1 (key msg : List Nat) : List Nat :=
  let key := if key.length > 64 then sha1 key else key
  let key := key ++ List.replicate (64 - key.length) 0
  let ipadKey := key.map (Nat.xor 54)
  let opadKey := key.map (Nat.xor 92)
  sha1 (opadKey ++ sha1 (ipadKey ++ msg))

/-- The iteration loop of PBKDF2 after the first round. -/
def pbkdf2Iter (pw : List Nat) (u acc : List Nat) : Nat → List Nat
  | 0 => acc
  | n + 1 =>
    let u2 := hmacSha1 pw u
    pbkdf2Iter pw u2 (xorBytes acc u2) n

/-- PBKDF2-HMAC-SHA1 for derived-key lengths of at most one SHA-1 block
(20 bytes); `rurl` only ever requests 16. -/
def pbkdf2HmacSha1 (pw salt : List Nat) (iterations dkLen : Nat) : List Nat :=
  let u1 := hmacSha1 pw (salt ++ [0, 0, 0, 1])
  (pbkdf2Iter pw u1 u1 (iterations - 1)).take dkLen

/-! AES-128 decryption (FIPS 197), needed by `decrypt_aes_cbc`.  The state is
a flat 16-byte list in the column-major order of the cipher input. -/

/-- The AES S-box. -/
def sbox : List Nat :=
  [99, 124, 119, 123, 242, 107, 111, 197, 48, 1, 103, 43, 254, 215, 171, 118,
   202, 130, 201, 125, 250, 89, 71, 240, 173, 212, 162, 175, 156, 164, 114, 192,
   183, 253, 147, 38, 54, 63, 247, 204, 52, 165, 229, 241, 113, 216, 49, 21,
   4, 199, 35, 195, 24, 150, 5, 154, 7, 18, 128, 226, 235, 39, 178, 117,
   9, 131, 44, 26, 27, 110, 90, 160, 82, 59, 214, 179, 41, 227, 47, 132,
   83, 209, 0, 237, 32, 252, 177, 91, 106, 203, 190, 57, 74, 76, 88, 207,
   208, 239, 170, 251, 67, 77, 51, 133, 69, 249, 2, 127, 80, 60, 159, 168,
   81, 163, 64, 143, 146, 157, 56, 245, 188, 182, 218, 33, 16, 255, 243, 210,
   205, 12, 19, 236, 95, 151, 68, 23, 196, 167, 126, 61, 100, 93, 25, 115,
   96, 129, 79, 220, 34, 42, 144, 136, 70, 238, 184, 20, 222, 94, 11, 219,
   224, 50, 58, 10, 73, 6, 36, 92, 194, 211, 172, 98, 145, 149, 228, 121,
   231, 200, 55, 109, 141, 213, 78, 169, 108, 86, 244, 234, 101, 122, 174, 8,
   186, 120, 37, 46, 28, 166, 180, 198, 232, 221, 116, 31, 75, 189, 139, 138,
   112, 62, 181, 102, 72, 3, 246, 14, 97, 53, 87, 185, 134, 193, 29, 158,
   225, 248, 152, 17, 105, 217, 142, 148, 155, 30, 135, 233, 206, 85, 40, 223,
   140, 161, 137, 13, 191, 230, 66, 104, 65, 153, 45, 15, 176, 84, 187, 22]

/-- The inverse AES S-box. -/
def invSbox : List Nat :=
  [82, 9, 106, 213, 48, 54, 165, 56, 191, 64, 163, 158, 129, 243, 215, 251,
   124, 227, 57, 130, 155, 47, 255, 135, 52, 142, 67, 68, 196, 222, 233, 203,
   84, 123, 148, 50, 166, 194, 35, 61, 238, 76, 149, 11, 66, 250, 195, 78,
   8, 46, 161, 102, 40, 217, 36, 178, 118, 91, 162, 73, 109, 139, 209, 37,
   114, 248, 246, 100, 134, 104, 152, 22, 212, 164, 92, 204, 93, 101, 182, 146,
   108, 112, 72, 80, 253, 237, 185, 218, 94, 21, 70, 87, 167, 141, 157, 132,
   144, 216, 171, 0, 140, 188, 211, 10, 247, 228, 88, 5, 184, 179, 69, 6,
   208, 44, 30, 143, 202, 63, 15, 2, 193, 175, 189, 3, 1, 19, 138, 107,
   58, 145, 17, 65, 79, 103, 220, 234, 151, 242, 207, 206, 240, 180, 230, 115,
   150, 172, 116, 34, 231, 173, 53, 133, 226, 249, 55, 232, 28, 117, 223, 110,
   71, 241, 26, 113, 29, 41, 197, 137, 111, 183, 98, 14, 170, 24, 190, 27,
   252, 86, 62, 75, 198, 210, 121, 32, 154, 219, 192, 254, 120, 205, 90, 244,
   31, 221, 168, 51, 136, 7, 199, 49, 177, 18, 16, 89, 39, 128, 236, 95,
   96, 81, 127, 169, 25, 181, 74, 13, 45, 229, 122, 159, 147, 201, 156, 239,
   160, 224, 59, 77, 174, 42, 245, 176, 200, 235, 187, 60, 131, 83, 153, 97,
   23, 43, 4, 126, 186, 119, 214, 38, 225, 105, 20, 99, 85, 33, 12, 125]

/-- S-box lookup. -/
def sboxAt (i : Nat) : Nat := sbox.getD i 0

/-- Inverse S-box lookup. -/
def invSboxAt (i : Nat) : Nat := invSbox.getD i 0

/-- AES round-constant bytes. -/
def rcon : List Nat := [1, 2, 4, 8, 16, 32, 64, 128, 27, 54]

/-- SubWord of the key schedule. -/
def subWord (w : Nat) : Nat :=
  (((sboxAt ((w >>> 24) % 256)) <<< 24) ||| ((sboxAt ((w >>> 16) % 256)) <<< 16)) |||
    (((sboxAt ((w >>> 8) % 256)) <<< 8) ||| sboxAt (w % 256))

/-- RotWord of the key schedule. -/
def rotWord (w : Nat) : Nat := ((w <<< 8) % 4294967296) ||| (w >>> 24)

/-- Extend the key schedule, one word per unit of fuel. -/
def keyExpandFrom (ws : List Nat) : Nat → List Nat
  | 0 => ws
  | f + 1 =>
    let i := ws.length
    let prev := ws.getD (i - 1) 0
    let temp :=
      if i % 4 = 0 then subWord (rotWord prev) ^^^ ((rcon.getD (i / 4 - 1) 0) <<< 24)
      else prev
    keyExpandFrom (ws ++ [(ws.getD (i - 4) 0) ^^^ temp]) f

/-- AES-128 key expansion: 44 words. -/
def keyExpansion (key : List Nat) : List Nat := keyExpandFrom (bytesToWordsBE key) 40

/-- The 16 bytes of round key `r`. -/
def roundKeyBytes (w : List Nat) (r : Nat) : List Nat :=
  ((w.drop (4 * r)).take 4).flatMap wordToBytesBE

/-- AddRoundKey. -/
def addRoundKey (st rk : List Nat) : List Nat := List.zipWith Nat.xor st rk

/-- Apply an index permutation to the flat state. -/
def permuteBy (perm : List Nat) (st : List Nat) : List Nat :=
  perm.map fun i => st.getD i 0

/-- InvShiftRows as a flat-state index permutation. -/
def invShiftRowsPerm : List Nat := [0, 13, 10, 7, 4, 1, 14, 11, 8, 5, 2, 15, 12, 9, 6, 3]

/-- Multiplication by x in GF(2^8). -/
def xtime (b : Nat) : Nat :=
  let b2 := (b <<< 1) % 256
  if b ≥ 128 then b2 ^^^ 27 else b2

/-- GF(2^8) product for a multiplier below 16 (all AES needs). -/
def gmul (a b : Nat) : Nat :=
  let t1 := if b &&& 1 ≠ 0 then a else 0
  let t2 := if b &&& 2 ≠ 0 then xtime a else 0
  let t4 := if b &&& 4 ≠ 0 then xtime (xtime a) else 0
  let t8 := if b &&& 8 ≠ 0 then xtime (xtime (xtime a)) else 0
  ((t1 ^^^ t2) ^^^ t4) ^^^ t8

/-- InvMixColumns on one 4-byte column. -/
def invMixColumn (c : List Nat) : List Nat :=
  let a0 := c.getD 0 0
  let a1 := c.getD 1 0
  let a2 := c.getD 2 0
  let a3 := c.getD 3 0
  [((gmul a0 14 ^^^ gmul a1 11) ^^^ gmul a2 13) ^^^ gmul a3 9,
   ((gmul a0 9 ^^^ gmul a1 14) ^^^ gmul a2 11) ^^^ gmul a3 13,
   ((gmul a0 13 ^^^ gmul a1 9) ^^^ gmul a2 14) ^^^ gmul a3 11,
   ((gmul a0 11 ^^^ gmul a1 13) ^^^ gmul a2 9) ^^^ gmul a3 14]

/-- Apply a column transformation to all four columns of the flat state. -/
def onColumns (f : List Nat → List Nat) (st : List Nat) : List Nat :=
  f (st.take 4) ++ f ((st.drop 4).take 4) ++ f ((st.drop 8).take 4) ++
    f ((st.drop 12).take 4)

/-- InvSubBytes. -/
def invSubBytes (st : List Nat) : List Nat := st.map invSboxAt

/-- The inverse rounds of the AES inverse cipher, fuel counting down from
round 9; the 0 case is the final InvShiftRows/InvSubBytes/AddRoundKey(0). -/
def aesInvRounds (w st : List Nat) : Nat → List Nat
  | 0 => addRoundKey (invSubBytes (permuteBy invShiftRowsPerm st)) (roundKeyBytes w 0)
  | f + 1 =>
    aesInvRounds w
      (onColumns invMixColumn
        (addRoundKey (invSubBytes (permuteBy invShiftRowsPerm st))
          (roundKeyBytes w (f + 1)))) f

/-- AES-128 inverse cipher on one 16-byte block, given the expanded key. -/
def aesInvCipher (w block : List Nat) : List Nat :=
  aesInvRounds w (addRoundKey block (roundKeyBytes w 10)) 9

/-! AES-128-CBC decryption with PKCS7 padding, the model of `decrypt_aes_cbc`
(identical in src/browser/chrome/linux.rs and the macOS module of
src/browser/chrome.rs): `cbc::Decryptor::<Aes128>` with the fixed IV of 16
ASCII spaces and `decrypt_padded_mut::<Pkcs7>`. -/

/-- `AES_IV`: sixteen ASCII spaces. -/
def AES_IV : List Nat := List.replicate 16 32

/-- Raw CBC decryption over consecutive 16-byte blocks. -/
def cbcDecryptBlocks (w prev : List Nat) (fuel : Nat) (ct : List Nat) : List Nat :=
  match fuel with
  | 0 => []
  | f + 1 =>
    match ct with
    | [] => []
    | _ =>
      let b := ct.take 16
      xorBytes (aesInvCipher w b) prev ++ cbcDecryptBlocks w b f (ct.drop 16)

/-- PKCS7 unpadding (block size 16): the padding byte must be in 1..=16 and
the last `p` bytes must all equal `p`. -/
def pkcs7Unpad (data : List Nat) : Option (List Nat) :=
  match data.getLast? with
  | none => none
  | some p =>
    if p = 0 ∨ p > 16 ∨ p > data.length then none
    else if (data.drop (data.length - p)).all (· = p) then
      some (data.take (data.length - p))
    else none

/-- `decrypt_aes_cbc`: AES-128-CBC with the space IV and PKCS7 unpadding;
any failure (bad key length, non-block-sized input, bad padding) is a
`BrowserCookie` error. -/
def decrypt_aes_cbc (ciphertext : List Nat) (key : List Nat) :
    Except RurlError (List Nat) :=
  if key.length ≠ 16 then .error (.BrowserCookie "Failed to create AES decryptor")
  else if ciphertext.length % 16 ≠ 0 ∨ ciphertext.isEmpty then
    .error (.BrowserCookie "Failed to decrypt cookie")
  else
    let raw := cbcDecryptBlocks (keyExpansion key) AES_IV ciphertext.length ciphertext
    match pkcs7Unpad raw with
    | some pt => .ok pt
    | none => .error (.BrowserCookie "Failed to decrypt cookie")

/-! The Linux Chromium decryptor (src/browser/chrome/linux.rs). -/

/-- `derive_key`: PBKDF2-HMAC-SHA1 with salt `saltysalt`, 1 iteration, 16
bytes (the Linux constants). -/
def derive_key (password : List Nat) : List Nat :=
  pbkdf2HmacSha1 password "saltysalt".bytes 1 16

/-- `LINUX_V10_PASSWORD`. -/
def LINUX_V10_PASSWORD : List Nat := "peanuts".bytes

/-- `struct LinuxChromeCookieDecryptor`. -/
structure LinuxChromeCookieDecryptor where
  v10_key : List Nat
  empty_key : List Nat
  v11_key : Option (List Nat)
  meta_version : Int

/-- `LinuxChromeCookieDecryptor::new`, with the keyring outcome
(`get_linux_keyring_password`) passed explicitly: `none` when the backend is
Basic-Text, `some pw` (possibly the empty vector) otherwise. -/
def LinuxChromeCookieDecryptor.new (keyringPassword : Option (List Nat))
    (metaVersion : Int) : LinuxChromeCookieDecryptor :=
  { v10_key := derive_key LINUX_V10_PASSWORD
    empty_key := derive_key []
    v11_key := keyringPassword.map derive_key
    meta_version := metaVersion }

/-- The conditional 32-byte SHA-256-prefix trim applied to decrypted
plaintext when the schema meta-version is at least 24 (`hash_prefix &&
decrypted.len() > 32` in the source). -/
def trim32 (tr : Bool) (p : List Nat) : List Nat :=
  if tr ∧ p.length > 32 then p.drop 32 else p

/-- `decrypt_aes_cbc_multi` (src/browser/chrome/linux.rs lines 350-368): try
the candidate keys in order.  Note the `.ok()?` in the source: a failing
`decrypt_aes_cbc` returns `None` for the whole function at once; only a
decryption that succeeds but is not valid UTF-8 moves on to the next key. -/
def decrypt_aes_cbc_multi (ciphertext : List Nat) (keys : List (List Nat))
    (hashTrim : Bool) : Option (List Nat) :=
  match keys with
  | [] => none
  | key :: rest =>
    match decrypt_aes_cbc ciphertext key with
    | .error _ => none
    | .ok decrypted =>
      let trimmed := trim32 hashTrim decrypted
      if utf8Valid trimmed then some trimmed
      else decrypt_aes_cbc_multi ciphertext rest hashTrim

/-- `LinuxChromeCookieDecryptor::decrypt` (src/browser/chrome/linux.rs lines
319-341). -/
def LinuxChromeCookieDecryptor.decrypt (d : LinuxChromeCookieDecryptor)
    (encryptedValue : List Nat) : Option (List Nat) :=
  if encryptedValue.length < 3 then none
  else
    let version := encryptedValue.take 3
    let ciphertext := encryptedValue.drop 3
    if version = "v10".bytes then
      decrypt_aes_cbc_multi ciphertext [d.v10_key, d.empty_key]
        (d.meta_version ≥ 24)
    else if version = "v11".bytes then
      match d.v11_key with
      | none => none
      | some k => decrypt_aes_cbc_multi ciphertext [k, d.empty_key] (d.meta_version ≥ 24)
    else none

/-! The macOS Chromium decryptor (the macos module of src/browser/chrome.rs). -/

/-- `struct MacChromeCookieDecryptor`: the key is absent when the keychain
lookup failed. -/
structure MacChromeCookieDecryptor where
  key : Option (List Nat)
  meta_version : Int

/-- `MacChromeCookieDecryptor::decrypt` (src/browser/chrome.rs lines 341-358):
a `v10`-tagged value is AES-128-CBC decrypted and trimmed under the ≥24
schema rule; any other tag makes the whole raw value be UTF-8 decoded. -/
def MacChromeCookieDecryptor.decrypt (d : MacChromeCookieDecryptor)
    (encryptedValue : List Nat) : Option (List Nat) :=
  if encryptedValue.length < 3 then none
  else
    let version := encryptedValue.take 3
    let ciphertext := encryptedValue.drop 3
    if version = "v10".bytes then
      match d.key with
      | none => none
      | some k =>
        match decrypt_aes_cbc ciphertext k with
        | .error _ => none
        | .ok decrypted =>
          let trimmed :=
            if d.meta_version ≥ 24 ∧ decrypted.length > 32 then decrypted.drop 32
            else decrypted
          if utf8Valid trimmed then some trimmed else none
    else if utf8Valid encryptedValue then some encryptedValue else none

/-- Decidable equality for `Except`, used to evaluate extraction results on
concrete inputs. -/
instance {ε α : Type} [DecidableEq ε] [DecidableEq α] : DecidableEq (Except ε α) :=
  fun x y =>
    match x, y with
    | .ok a, .ok b => if h : a = b then .isTrue (by rw [h]) else .isFalse (by simp [h])
    | .error a, .error b => if h : a = b then .isTrue (by rw [h]) else .isFalse (by simp [h])
    | .ok _, .error _ => .isFalse (by simp)
    | .error _, .ok _ => .isFalse (by simp)

/-! The Chromium extractors' row pipeline.  SQLite access is effectful; the
rows produced by the single `SELECT host_key, name, value, encrypted_value,
path, expires_utc, <secure>, <httponly> FROM cookies` query are modelled as a
list of already-typed rows (`read_encrypted_value` normalises blob/text/null
to a byte vector, so the model carries the byte vector directly; the
`Result`-typed sqlite column errors of `row_to_cookie` cannot occur on typed
rows). -/

/-- One row of the Chromium `cookies` table as read by the extractors. -/
structure ChromiumRow where
  host_key : RStr
  name : RStr
  value : RStr
  encrypted_value : List Nat
  path : RStr
  expires_utc : Int
  secure : Int
  http_only : Int
deriving DecidableEq

/-- `chromium_expires_to_unix_seconds`, identical in
src/browser/chrome/linux.rs (lines 285-295) and
src/browser/chrome/windows.rs (lines 307-317).  Rust `i64` division truncates
toward zero, hence `Int.tdiv`. -/
def chromium_expires_to_unix_seconds (expiresUtc : Int) : Option Int :=
  if expiresUtc = 0 then none
  else
    let unixSeconds := Int.tdiv expiresUtc 1000000 - 11644473600
    if unixSeconds ≤ 0 then none else some unixSeconds

namespace ChromeLinux

/-- `row_to_cookie` of src/browser/chrome/linux.rs lines 223-269. -/
def row_to_cookie (row : ChromiumRow) (d : LinuxChromeCookieDecryptor) :
    Option Cookie :=
  let cookieValue : Option (List Nat) :=
    if ¬ row.value.isEmpty then some row.value
    else if ¬ row.encrypted_value.isEmpty then d.decrypt row.encrypted_value
    else none
  match cookieValue with
  | none => none
  | some v =>
    some { name := row.name, value := v, domain := row.host_key, path := row.path,
           secure := row.secure ≠ 0, http_only := row.http_only ≠ 0,
           expires := chromium_expires_to_unix_seconds row.expires_utc }

/-- The store built by the row loop of `extract_chromium_cookies`
(src/browser/chrome/linux.rs lines 88-95). -/
def buildStore (d : LinuxChromeCookieDecryptor) (rows : List ChromiumRow) :
    CookieStore :=
  rows.foldl
    (fun st row =>
      match row_to_cookie row d with
      | some c => storeInsert st c
      | none => st) []

/-- The pure tail of `extract_chromium_cookies` (src/browser/chrome/linux.rs
lines 88-103): build the store from the queried rows, then fail with a
`BrowserCookie` error if it ended up empty. -/
def extract_chromium_cookies (d : LinuxChromeCookieDecryptor)
    (rows : List ChromiumRow) : Except RurlError CookieStore :=
  let store := buildStore d rows
  if store.isEmpty then
    .error (.BrowserCookie "No Chromium cookies could be extracted")
  else .ok store

end ChromeLinux

namespace ChromeMac

/-- `row_to_cookie` of the macos module of src/browser/chrome.rs (lines
260-315).  Note: unlike the Linux and Windows extractors, the expiry stored
here is the raw `expires_utc` (`None` only when it is `0`); there is no call
to a microseconds-since-1601 conversion. -/
def row_to_cookie (row : ChromiumRow) (d : MacChromeCookieDecryptor) :
    Option Cookie :=
  let cookieValue : Option (List Nat) :=
    if ¬ row.value.isEmpty then some row.value
    else if ¬ row.encrypted_value.isEmpty then d.decrypt row.encrypted_value
    else none
  match cookieValue with
  | none => none
  | some v =>
    some { name := row.name, value := v, domain := row.host_key, path := row.path,
           secure := row.secure ≠ 0, http_only := row.http_only ≠ 0,
           expires := if row.expires_utc = 0 then none else some row.expires_utc }

end ChromeMac

/-! The Firefox extractor (src/browser/firefox/macos.rs). -/

/-- One row of the Firefox `moz_cookies` table as read by the extractor
(`SELECT host, name, value, path, <expiry>, <secure>, <httponly>`). -/
structure FirefoxRow where
  host : RStr
  name : RStr
  value : RStr
  path : RStr
  expiry : Option Int
  isSecure : Int
  isHttpOnly : Int
deriving DecidableEq

namespace FirefoxMac

/-- `row_to_cookie` of src/browser/firefox/macos.rs lines 208-252: every
typed row becomes a cookie (there is no emptiness or validity check); for
schema version ≥ 16 the expiry is milliseconds and is divided by 1000, and a
non-positive result means no expiry. -/
def row_to_cookie (row : FirefoxRow) (schemaVersion : Int) : Option Cookie :=
  let expirySeconds :=
    row.expiry.map fun e => if schemaVersion ≥ 16 then Int.tdiv e 1000 else e
  let expires :=
    match expirySeconds with
    | some s => if s > 0 then some s else none
    | none => none
  some { name := row.name, value := row.value, domain := row.host,
         path := row.path, secure := row.isSecure ≠ 0,
         http_only := row.isHttpOnly ≠ 0, expires := expires }

/-- The store built by the row loop of `extract_cookies`
(src/browser/firefox/macos.rs lines 77-83). -/
def buildStore (schemaVersion : Int) (rows : List FirefoxRow) : CookieStore :=
  rows.foldl
    (fun st row =>
      match row_to_cookie row schemaVersion with
      | some c => storeInsert st c
      | none => st) []

/-- The pure tail of the Firefox `extract_cookies`
(src/browser/firefox/macos.rs lines 77-91). -/
def extract_cookies (schemaVersion : Int) (rows : List FirefoxRow) :
    Except RurlError CookieStore :=
  let store := buildStore schemaVersion rows
  if store.isEmpty then
    .error (.BrowserCookie "No Firefox cookies could be extracted")
  else .ok store

end FirefoxMac

/-! The Safari `.binarycookies` parser (the macos module of
src/browser/safari.rs).  The `DataParser` cursor is threaded explicitly; the
only floating-point operation in the source is the `as i64` cast of the
little-endian IEEE-754 expiration, which is modelled exactly on the bit
pattern. -/

namespace Safari

/-- `SAFARI_COOKIE_MAGIC`. -/
def SAFARI_COOKIE_MAGIC : List Nat := "cook".bytes

/-- `SAFARI_PAGE_MAGIC`. -/
def SAFARI_PAGE_MAGIC : List Nat := [0, 0, 1, 0]

/-- `MAC_EPOCH_OFFSET`. -/
def MAC_EPOCH_OFFSET : Int := 978307200

/-- `DataParser::read_bytes`: the slice `data[cursor..cursor+len]`, or a
truncation error. -/
def readBytesAt (data : List Nat) (cursor len : Nat) :
    Except RurlError (List Nat × Nat) :=
  if cursor + len ≤ data.length then .ok ((data.drop cursor).take len, cursor + len)
  else .error (.BrowserCookie "Safari cookies truncated")

/-- `DataParser::expect_bytes`. -/
def expectBytesAt (data : List Nat) (cursor : Nat) (expected : List Nat)
    (label : String) : Except RurlError Nat := do
  let (actual, c2) ← readBytesAt data cursor expected.length
  if actual = expected then .ok c2
  else .error (.BrowserCookie ("Safari cookies invalid " ++ label))

/-- `DataParser::read_u32_be`. -/
def readU32beAt (data : List Nat) (cursor : Nat) :
    Except RurlError (Nat × Nat) := do
  let (bs, c2) ← readBytesAt data cursor 4
  .ok ((((bs.getD 0 0) <<< 24) ||| ((bs.getD 1 0) <<< 16)) |||
    (((bs.getD 2 0) <<< 8) ||| bs.getD 3 0), c2)

/-- `DataParser::read_u32_le`. -/
def readU32leAt (data : List Nat) (cursor : Nat) :
    Except RurlError (Nat × Nat) := do
  let (bs, c2) ← readBytesAt data cursor 4
  .ok ((((bs.getD 3 0) <<< 24) ||| ((bs.getD 2 0) <<< 16)) |||
    (((bs.getD 1 0) <<< 8) ||| bs.getD 0 0), c2)

/-- The raw bits of `DataParser::read_f64_le` (little-endian u64). -/
def readU64leAt (data : List Nat) (cursor : Nat) :
    Except RurlError (Nat × Nat) := do
  let (bs, c2) ← readBytesAt data cursor 8
  .ok (((((bs.getD 7 0) <<< 56) ||| ((bs.getD 6 0) <<< 48)) |||
    (((bs.getD 5 0) <<< 40) ||| ((bs.getD 4 0) <<< 32))) |||
    ((((bs.getD 3 0) <<< 24) ||| ((bs.getD 2 0) <<< 16)) |||
    (((bs.getD 1 0) <<< 8) ||| bs.getD 0 0)), c2)

/-- Read `count` little-endian u32 values (the page-offset and record-offset
tables), threading the cursor. -/
def readU32leList (data : List Nat) (cursor : Nat) :
    Nat → Except RurlError (List Nat × Nat)
  | 0 => .ok ([], cursor)
  | n + 1 => do
    let (v, c2) ← readU32leAt data cursor
    let (vs, c3) ← readU32leList data c2 n
    .ok (v :: vs, c3)

/-- Read `count` big-endian u32 values (the page-size table). -/
def readU32beList (data : List Nat) (cursor : Nat) :
    Nat → Except RurlError (List Nat × Nat)
  | 0 => .ok ([], cursor)
  | n + 1 => do
    let (v, c2) ← readU32beAt data cursor
    let (vs, c3) ← readU32beList data c2 n
    .ok (v :: vs, c3)

/-- `i64::MIN`. -/
def I64_MIN : Int := -9223372036854775808

/-- `i64::MAX`. -/
def I64_MAX : Int := 9223372036854775807

/-- Rust's saturating `f64 as i64` cast, computed exactly from the IEEE-754
bit pattern: NaN maps to 0, the value is truncated toward zero, and results
outside the `i64` range saturate. -/
def f64BitsToI64 (bits : Nat) : Int :=
  let s := bits >>> 63
  let e := (bits >>> 52) &&& 2047
  let m := bits &&& 4503599627370495
  if e = 2047 then (if m ≠ 0 then 0 else if s = 1 then I64_MIN else I64_MAX)
  else
    let mag : Nat :=
      if e = 0 then 0
      else if e ≥ 1075 then (4503599627370496 + m) <<< (e - 1075)
      else (4503599627370496 + m) >>> (1075 - e)
    let v : Int := if s = 1 then -(mag : Int) else (mag : Int)
    if v < I64_MIN then I64_MIN else if v > I64_MAX then I64_MAX else v

/-- `mac_absolute_to_unix`, on the bit pattern of the f64 timestamp. -/
def mac_absolute_to_unix (timestampBits : Nat) : Int :=
  MAC_EPOCH_OFFSET + f64BitsToI64 timestampBits

/-- `read_cstring_at` (src/browser/safari.rs lines 170-184): an offset at or
beyond the end of the record is a hard `BrowserCookie` error, as are a
missing NUL terminator and invalid UTF-8. -/
def read_cstring_at (data : List Nat) (offset : Nat) :
    Except RurlError (List Nat) :=
  if offset ≥ data.length then
    .error (.BrowserCookie "Safari cookie offset out of bounds")
  else
    let slice := data.drop offset
    match slice.findIdx? (· = 0) with
    | none => .error (.BrowserCookie "Safari cookie string not terminated")
    | some stop =>
      let bytes := slice.take stop
      if utf8Valid bytes then .ok bytes
      else .error (.BrowserCookie "Safari cookie string decode failed")

/-- `parse_safari_record` (src/browser/safari.rs lines 133-168): a record
whose domain or name is empty is silently dropped (`Ok(None)`). -/
def parse_safari_record (data : List Nat) : Except RurlError (Option Cookie) := do
  let (_recordSize, c1) ← readU32leAt data 0
  let (_, c2) ← readBytesAt data c1 4
  let (flags, c3) ← readU32leAt data c2
  let (_, c4) ← readBytesAt data c3 4
  let (domainOffset, c5) ← readU32leAt data c4
  let (nameOffset, c6) ← readU32leAt data c5
  let (pathOffset, c7) ← readU32leAt data c6
  let (valueOffset, c8) ← readU32leAt data c7
  let (_, c9) ← readBytesAt data c8 8
  let (expirationBits, c10) ← readU64leAt data c9
  let (_creationBits, _c11) ← readU64leAt data c10
  let domain ← read_cstring_at data domainOffset
  let name ← read_cstring_at data nameOffset
  let path ← read_cstring_at data pathOffset
  let value ← read_cstring_at data valueOffset
  if domain.isEmpty ∨ name.isEmpty then
    return none
  return some
    { name := name, value := value, domain := domain, path := path,
      secure := flags &&& 1 ≠ 0, http_only := false,
      expires := some (mac_absolute_to_unix expirationBits) }

/-- The record loop of `parse_safari_page` (src/browser/safari.rs lines
120-128): an offset at or beyond the end of the page is skipped (`continue`),
otherwise the record at `data[offset..]` is parsed and its errors
propagate. -/
def parseRecordsAt (data : List Nat) :
    List Nat → CookieStore → Except RurlError CookieStore
  | [], store => .ok store
  | offset :: rest, store =>
    if offset ≥ data.length then parseRecordsAt data rest store
    else do
      let parsed ← parse_safari_record (data.drop offset)
      match parsed with
      | some cookie => parseRecordsAt data rest (storeInsert store cookie)
      | none => parseRecordsAt data rest store

/-- `parse_safari_page` (src/browser/safari.rs lines 107-131). -/
def parse_safari_page (data : List Nat) (store : CookieStore) :
    Except RurlError CookieStore := do
  let c1 ← expectBytesAt data 0 SAFARI_PAGE_MAGIC "page signature"
  let (recordCount, c2) ← readU32leAt data c1
  let (recordOffsets, _c3) ← readU32leList data c2 recordCount
  if recordCount = 0 then
    return store
  parseRecordsAt data recordOffsets store

/-- The page loop of `parse_safari_cookies` (src/browser/safari.rs lines
94-102): each page is the slice `data[cursor..cursor+size]`, an out-of-range
page is an `Invalid Safari page size` error, and pages are parsed in
sequence. -/
def parsePagesAt (data : List Nat) :
    List Nat → Nat → CookieStore → Except RurlError CookieStore
  | [], _, store => .ok store
  | size :: rest, cursor, store =>
    if cursor + size ≤ data.length then do
      let page := (data.drop cursor).take size
      let store2 ← parse_safari_page page store
      parsePagesAt data rest (cursor + size) store2
    else .error (.BrowserCookie "Invalid Safari page size")

/-- `parse_safari_cookies` (src/browser/safari.rs lines 85-105), returning
the stores it fills. -/
def parse_safari_cookies (data : List Nat) (store : CookieStore) :
    Except RurlError CookieStore := do
  let c1 ← expectBytesAt data 0 SAFARI_COOKIE_MAGIC "database signature"
  let (pageCount, c2) ← readU32beAt data c1
  let (pageSizes, c3) ← readU32beList data c2 pageCount
  parsePagesAt data pageSizes c3 store

/-- The pure tail of the Safari `extract_cookies` (src/browser/safari.rs
lines 36-52): parse the file bytes into a store and fail with a
`BrowserCookie` error if it is empty. -/
def extract_cookies (data : List Nat) : Except RurlError CookieStore := do
  let store ← parse_safari_cookies data []
  if store.isEmpty then
    .error (.BrowserCookie "No Safari cookies could be extracted")
  else .ok store

end Safari

/-- The concrete store cookie used by the C1 witness. -/
def witnessCookie : Cookie :=
  { name := "a".bytes, value := "1".bytes, domain := "example.com".bytes,
    path := "/".bytes, secure := false, http_only := false, expires := none }

/-- The concrete URL used by the C1 witness. -/
def witnessUrl : Url :=
  { scheme := "http".bytes, host := some "example.com".bytes, path := "/".bytes }

/-! Concrete inputs for the remaining claims. -/

/-- A decryptor state with no derived keys; fine wherever no encrypted value
is ever decrypted. -/
def noKeysDecryptor : LinuxChromeCookieDecryptor :=
  { v10_key := [], empty_key := [], v11_key := none, meta_version := 0 }

/-- A Chromium row holding a realistic `expires_utc` (microseconds since
1601; this value is 2022-06-18 as Unix seconds after conversion). -/
def expiryRowW : ChromiumRow :=
  { host_key := "example.com".bytes, name := "a".bytes, value := "1".bytes,
    encrypted_value := [], path := "/".bytes,
    expires_utc := 13300000000000000, secure := 0, http_only := 0 }

/-- A plain Chromium row with a plaintext value. -/
def chromiumRowW : ChromiumRow :=
  { host_key := "h".bytes, name := "n".bytes, value := "1".bytes,
    encrypted_value := [], path := "/".bytes, expires_utc := 0, secure := 0,
    http_only := 0 }

/-- The store `extract_chromium_cookies` builds from `[chromiumRowW]`. -/
def chromiumStoreW : CookieStore :=
  [("h".bytes,
    [{ name := "n".bytes, value := "1".bytes, domain := "h".bytes,
       path := "/".bytes, secure := false, http_only := false,
       expires := none }])]

/-- A Chromium row with neither a plaintext nor an encrypted value. -/
def chromiumRowNoValueW : ChromiumRow :=
  { host_key := "h".bytes, name := "n".bytes, value := [],
    encrypted_value := [], path := "/".bytes, expires_utc := 0, secure := 0,
    http_only := 0 }

/-- A Firefox row whose host, name and value are all empty strings. -/
def emptyFirefoxRow : FirefoxRow :=
  { host := [], name := [], value := [], path := [], expiry := none,
    isSecure := 0, isHttpOnly := 0 }

/-- A plain Firefox row (schema ≥ 16: expiry in milliseconds). -/
def firefoxRowW : FirefoxRow :=
  { host := "h".bytes, name := "n".bytes, value := "v".bytes,
    path := "/".bytes, expiry := some 1700000000000, isSecure := 0,
    isHttpOnly := 0 }

/-- The store the Firefox extractor builds from `[firefoxRowW]` at schema
version 16. -/
def firefoxStoreW : CookieStore :=
  [("h".bytes,
    [{ name := "n".bytes, value := "v".bytes, domain := "h".bytes,
       path := "/".bytes, secure := false, http_only := false,
       expires := some 1700000000 }])]

/-- A hand-built 64-byte Safari record: header (size, skip, flags = secure,
skip, four string offsets, skip, expiration 0.0, creation 0.0) followed by the
NUL-terminated strings `a`, `b`, `/`, `v` at offsets 56, 58, 60, 62. -/
def safariRecordW : List Nat :=
  [0, 0, 0, 0] ++ [0, 0, 0, 0] ++ [1, 0, 0, 0] ++ [0, 0, 0, 0] ++
  [56, 0, 0, 0] ++ [58, 0, 0, 0] ++ [60, 0, 0, 0] ++ [62, 0, 0, 0] ++
  [0, 0, 0, 0, 0, 0, 0, 0] ++ [0, 0, 0, 0, 0, 0, 0, 0] ++
  [0, 0, 0, 0, 0, 0, 0, 0] ++
  [97, 0] ++ [98, 0] ++ [47, 0] ++ [118, 0]

/-- The cookie `safariRecordW` parses to. -/
def safariCookieW : Cookie :=
  { name := [98], value := [118], domain := [97], path := [47],
    secure := true, http_only := false, expires := some 978307200 }

/-- A complete Safari `.binarycookies` file wrapping `safariRecordW` into one
76-byte page. -/
def safariFileW : List Nat :=
  "cook".bytes ++ [0, 0, 0, 1] ++ [0, 0, 0, 76] ++
    ([0, 0, 1, 0] ++ [1, 0, 0, 0] ++ [12, 0, 0, 0] ++ safariRecordW)

/-- A structurally valid Safari file with zero pages: parses to an empty
store. -/
def emptySafariFileW : List Nat := "cook".bytes ++ [0, 0, 0, 0]

/-- A 12-byte Safari page declaring one record at offset 200, far beyond the
end of the page. -/
def oobOffsetPageW : List Nat := [0, 0, 1, 0] ++ [1, 0, 0, 0] ++ [200, 0, 0, 0]

/-- AES-128-CBC encryption (space IV) of the PKCS7-padded plaintext `hello`
under `derive_key([])`, the empty-password key.  Decrypting it with the
`peanuts`-derived default key produces invalid PKCS7 padding. -/
def c8Ciphertext : List Nat :=
  [175, 2, 89, 167, 13, 25, 207, 189, 178, 189, 144, 185, 130, 8, 57, 74]

/-- C2 counterexample: at `h = ""` and `d = ""` the claim's rule says the
cookie matches (no leading dot and `h` equals `d` exactly), but
`domain_matches` rejects the empty cookie domain. -/
theorem domain_matches_claim2_counterexample :
    domain_matches [] [] = false ∧ specDomainMatches [] [] = true := by
  decide

/-- C2 as amended: `domain_matches(h, d)` holds iff, after trimming and
lower-casing `d`: when `d` starts with `.`, the dot-stripped `d` is non-empty
and equals `h` or `h` ends with `"." + d`; when `d` has no leading dot, `d` is
non-empty and `h` equals `d` exactly. -/
theorem domain_matches_claim2_amended (host cookieDomain : RStr) :
    domain_matches host cookieDomain = specDomainMatchesAmended host cookieDomain := by
  unfold domain_matches specDomainMatchesAmended
  cases hcd : asciiLower (asciiTrim cookieDomain) with
  | nil => simp [dotByte]
  | cons b rest =>
    by_cases hb : b = dotByte
    · simp only [hb, List.isEmpty_cons, List.headD_cons, if_true, if_pos rfl,
        Bool.false_eq_true, if_false]
      cases hdrop : (dotByte :: rest).dropWhile (· = dotByte) <;> simp
    · simp [hb]

/-- C3: `path_matches(p, c)` holds iff `p == c`, or `p` starts with `c` and
(`c` ends with `/` or the byte of `p` immediately following the prefix `c` is
`/`), with an empty cookie path treated as `/`. -/
theorem path_matches_claim3 (requestPath cookiePath : RStr) :
    path_matches requestPath cookiePath = specPathMatches requestPath cookiePath := by
  unfold path_matches specPathMatches
  by_cases h1 : requestPath = (if cookiePath.isEmpty then [slashByte] else cookiePath)
  · simp [h1]
  · by_cases h2 : (if cookiePath.isEmpty then [slashByte] else cookiePath).isPrefixOf requestPath <;>
      simp [h1, h2]

/-- C4: `is_expired(None, now)` is always false; `is_expired(Some(x), now)` is
false for `x > 100_000_000_000`; otherwise it equals `x <= now`. -/
theorem is_expired_claim4 (x now : Int) :
    is_expired none now = false ∧
    (x > 100000000000 → is_expired (some x) now = false) ∧
    (x ≤ 100000000000 → is_expired (some x) now = decide (x ≤ now)) := by
  refine ⟨rfl, fun h => ?_, fun h => ?_⟩
  · simp [is_expired, h]
  · simp only [is_expired, if_neg (by omega : ¬ x > 100000000000)]

/-- Witness for C4 at concrete inputs. -/
theorem is_expired_claim4_witness :
    is_expired (some 200000000000) 5 = false ∧
    is_expired (some 50) 100 = decide ((50 : Int) ≤ 100) :=
  ⟨(is_expired_claim4 200000000000 5).2.1 (by decide),
   (is_expired_claim4 50 100).2.2 (by decide)⟩

/-- C1: every cookie returned by `cookies_for_url` passes all four filters
(secure-vs-scheme, expiry at the given clock value, domain match against the
lower-cased URL host, path match); a URL without a host yields the empty list;
and against an `http` URL no returned cookie is secure. -/
theorem cookies_for_url_claim1 :
    (∀ (store : CookieStore) (url : Url) (now : Int) (c : Cookie),
        c ∈ cookies_for_url store url now →
          (c.secure = true → url.scheme = "https".bytes) ∧
          is_expired c.expires now = false ∧
          domain_matches (asciiLower (url.host.getD [])) c.domain = true ∧
          path_matches url.path c.path = true) ∧
    (∀ (store : CookieStore) (url : Url) (now : Int),
        url.host = none → cookies_for_url store url now = []) ∧
    (∀ (store : CookieStore) (url : Url) (now : Int) (c : Cookie),
        url.scheme = "http".bytes → c ∈ cookies_for_url store url now →
          c.secure = false) := by
  have main : ∀ (store : CookieStore) (url : Url) (now : Int) (c : Cookie),
      c ∈ cookies_for_url store url now →
        (c.secure = true → url.scheme = "https".bytes) ∧
        is_expired c.expires now = false ∧
        domain_matches (asciiLower (url.host.getD [])) c.domain = true ∧
        path_matches url.path c.path = true := by
    intro store url now c hc
    unfold cookies_for_url at hc
    cases hhost : url.host with
    | none => simp [hhost] at hc
    | some h =>
      rw [hhost] at hc
      simp only [List.mem_flatMap, List.mem_filter] at hc
      obtain ⟨l, -, -, hacc⟩ := hc
      simp only [cookieAccepted, Bool.and_eq_true, Bool.not_eq_true'] at hacc
      obtain ⟨⟨⟨hsec, hexp⟩, hdom⟩, hpath⟩ := hacc
      refine ⟨?_, by simpa using hexp, by simpa [hhost] using hdom, hpath⟩
      intro hs
      rw [hs] at hsec
      cases hd : decide (url.scheme = "https".bytes) with
      | true => exact of_decide_eq_true hd
      | false => rw [hd] at hsec; exact absurd hsec (by decide)
  refine ⟨main, ?_, ?_⟩
  · intro store url now hnone
    unfold cookies_for_url
    rw [hnone]
  · intro store url now c hscheme hc
    cases hcs : c.secure
    · rfl
    · have := (main store url now c hc).1 hcs
      rw [hscheme] at this
      exact absurd this (by decide)

/-- Witness for C1: at a concrete store and URL, the returned cookie passes
the expiry, domain and path filters. -/
theorem cookies_for_url_claim1_witness :
    is_expired witnessCookie.expires 100 = false ∧
    domain_matches (asciiLower (witnessUrl.host.getD [])) witnessCookie.domain = true ∧
    path_matches witnessUrl.path witnessCookie.path = true := by
  have h := cookies_for_url_claim1.1 [("example.com".bytes, [witnessCookie])]
    witnessUrl 100 witnessCookie (by decide)
  exact ⟨h.2.1, h.2.2.1, h.2.2.2⟩

/-- Helper: a successful `Except` bind factors through a successful first
component. -/
theorem except_bind_ok {ε α β : Type} {x : Except ε α} {f : α → Except ε β}
    {b : β} (h : (x >>= f) = .ok b) : ∃ a, x = .ok a ∧ f a = .ok b := by
  cases x with
  | ok a => exact ⟨a, rfl, h⟩
  | error e => exact absurd h (by simp [Bind.bind, Except.bind])

/-- C5 (code bug): the Linux/Windows conversion maps
`expires_utc = 13_300_000_000_000_000` to Unix seconds `1_655_526_400`, and
the Linux `row_to_cookie` stores exactly that; but the macOS `row_to_cookie`
stores the raw microseconds-since-1601 value unconverted, so on macOS the
stored expiry differs from the claimed conversion. -/
theorem chromium_expiry_claim5_code_bug :
    chromium_expires_to_unix_seconds 13300000000000000 = some 1655526400 ∧
    (ChromeLinux.row_to_cookie expiryRowW noKeysDecryptor).map Cookie.expires =
      some (some 1655526400) ∧
    (ChromeMac.row_to_cookie expiryRowW { key := none, meta_version := 0 }).map
      Cookie.expires = some (some 13300000000000000) ∧
    (ChromeMac.row_to_cookie expiryRowW { key := none, meta_version := 0 }).map
        Cookie.expires ≠
      some (chromium_expires_to_unix_seconds 13300000000000000) := by
  refine ⟨by decide, by decide, by decide, by decide⟩

/-- C6: every extractor (Chromium-Linux, Firefox, Safari) fails with the
dedicated `BrowserCookie` error when the structurally successful pipeline
produced an empty store, and never returns an empty store as success. -/
theorem empty_store_error_claim6 :
    (∀ (d : LinuxChromeCookieDecryptor) (rows : List ChromiumRow)
        (s : CookieStore),
        ChromeLinux.extract_chromium_cookies d rows = .ok s → s ≠ []) ∧
    (∀ (d : LinuxChromeCookieDecryptor) (rows : List ChromiumRow),
        ChromeLinux.buildStore d rows = [] →
        ChromeLinux.extract_chromium_cookies d rows =
          .error (.BrowserCookie "No Chromium cookies could be extracted")) ∧
    (∀ (v : Int) (rows : List FirefoxRow) (s : CookieStore),
        FirefoxMac.extract_cookies v rows = .ok s → s ≠ []) ∧
    (∀ (v : Int) (rows : List FirefoxRow),
        FirefoxMac.buildStore v rows = [] →
        FirefoxMac.extract_cookies v rows =
          .error (.BrowserCookie "No Firefox cookies could be extracted")) ∧
    (∀ (data : List Nat) (s : CookieStore),
        Safari.extract_cookies data = .ok s → s ≠ []) ∧
    (∀ (data : List Nat),
        Safari.parse_safari_cookies data [] = .ok [] →
        Safari.extract_cookies data =
          .error (.BrowserCookie "No Safari cookies could be extracted")) := by
  refine ⟨?_, ?_, ?_, ?_, ?_, ?_⟩
  · intro d rows s h
    unfold ChromeLinux.extract_chromium_cookies at h
    by_cases he : (ChromeLinux.buildStore d rows).isEmpty
    · rw [if_pos he] at h
      exact absurd h (by simp)
    · rw [if_neg he] at h
      injection h with h2
      subst h2
      simpa [List.isEmpty_iff] using he
  · intro d rows he
    unfold ChromeLinux.extract_chromium_cookies
    rw [he]
    rfl
  · intro v rows s h
    unfold FirefoxMac.extract_cookies at h
    by_cases he : (FirefoxMac.buildStore v rows).isEmpty
    · rw [if_pos he] at h
      exact absurd h (by simp)
    · rw [if_neg he] at h
      injection h with h2
      subst h2
      simpa [List.isEmpty_iff] using he
  · intro v rows he
    unfold FirefoxMac.extract_cookies
    rw [he]
    rfl
  · intro data s h
    unfold Safari.extract_cookies at h
    obtain ⟨st, hp, h⟩ := except_bind_ok h
    by_cases he : st.isEmpty
    · rw [if_pos he] at h
      exact absurd h (by simp)
    · rw [if_neg he] at h
      injection h with h2
      subst h2
      simpa [List.isEmpty_iff] using he
  · intro data hp
    unfold Safari.extract_cookies
    rw [hp]
    rfl

/-- Witness for C6: a one-row Chromium extraction, a one-row Firefox
extraction and the one-record Safari file each yield non-empty stores, and
the no-page Safari file (an empty parse) yields the dedicated error. -/
theorem empty_store_error_claim6_witness :
    chromiumStoreW ≠ [] ∧ firefoxStoreW ≠ [] ∧
    [([97], [safariCookieW])] ≠ ([] : CookieStore) ∧
    Safari.extract_cookies emptySafariFileW =
      .error (.BrowserCookie "No Safari cookies could be extracted") ∧
    ChromeLinux.extract_chromium_cookies noKeysDecryptor [] =
      .error (.BrowserCookie "No Chromium cookies could be extracted") ∧
    FirefoxMac.extract_cookies 16 [] =
      .error (.BrowserCookie "No Firefox cookies could be extracted") :=
  ⟨empty_store_error_claim6.1 noKeysDecryptor [chromiumRowW] chromiumStoreW
      (by decide),
   empty_store_error_claim6.2.2.1 16 [firefoxRowW] firefoxStoreW (by decide),
   empty_store_error_claim6.2.2.2.2.1 safariFileW [([97], [safariCookieW])]
      (by decide),
   empty_store_error_claim6.2.2.2.2.2 emptySafariFileW (by decide),
   empty_store_error_claim6.2.1 noKeysDecryptor [] (by decide),
   empty_store_error_claim6.2.2.2.1 16 [] (by decide)⟩

/-- C7 counterexample: a Firefox `moz_cookies` row whose host, name and value
are all empty strings is stored as a cookie with empty name, domain and value
rather than being dropped, contradicting the claimed invariant for the
Firefox extractor. -/
theorem cookie_invariant_claim7_counterexample :
    FirefoxMac.row_to_cookie emptyFirefoxRow 17 =
      some { name := [], value := [], domain := [], path := [],
             secure := false, http_only := false, expires := none } := by
  decide

/-- C7 as amended: the Chromium extractor drops a row whose value is empty
and whose encrypted value is absent or fails to decrypt, and the Safari
parser drops records with empty domain or name; but the Firefox extractor
stores every row unconditionally (empty names, domains and values included),
and no extractor other than Safari checks that name and domain are
non-empty. -/
theorem cookie_invariant_claim7_amended :
    (∀ (row : ChromiumRow) (d : LinuxChromeCookieDecryptor),
        row.value = [] →
        (row.encrypted_value = [] ∨ d.decrypt row.encrypted_value = none) →
        ChromeLinux.row_to_cookie row d = none) ∧
    (∀ (data : List Nat) (c : Cookie),
        Safari.parse_safari_record data = .ok (some c) →
        c.domain ≠ [] ∧ c.name ≠ []) ∧
    (∀ (row : FirefoxRow) (v : Int),
        (FirefoxMac.row_to_cookie row v).isSome = true) := by
  refine ⟨?_, ?_, ?_⟩
  · intro row d hval henc
    unfold ChromeLinux.row_to_cookie
    rw [hval]
    rcases henc with he | hd
    · rw [he]
      rfl
    · by_cases he : row.encrypted_value.isEmpty
      · simp [he]
      · simp [he, hd]
  · intro data c h
    unfold Safari.parse_safari_record at h
    obtain ⟨_, -, h⟩ := except_bind_ok h
    obtain ⟨_, -, h⟩ := except_bind_ok h
    obtain ⟨_, -, h⟩ := except_bind_ok h
    obtain ⟨_, -, h⟩ := except_bind_ok h
    obtain ⟨_, -, h⟩ := except_bind_ok h
    obtain ⟨_, -, h⟩ := except_bind_ok h
    obtain ⟨_, -, h⟩ := except_bind_ok h
    obtain ⟨_, -, h⟩ := except_bind_ok h
    obtain ⟨_, -, h⟩ := except_bind_ok h
    obtain ⟨_, -, h⟩ := except_bind_ok h
    obtain ⟨_, -, h⟩ := except_bind_ok h
    obtain ⟨domain, -, h⟩ := except_bind_ok h
    obtain ⟨name, -, h⟩ := except_bind_ok h
    obtain ⟨path, -, h⟩ := except_bind_ok h
    obtain ⟨value, -, h⟩ := except_bind_ok h
    by_cases hemp : domain.isEmpty ∨ name.isEmpty
    · rw [if_pos hemp] at h
      exact absurd h (by simp [pure, Except.pure])
    · rw [if_neg hemp] at h
      simp only [bind, Except.bind, pure, Except.pure, Except.ok.injEq,
        Option.some.injEq] at h
      push_neg at hemp
      subst h
      constructor
      · simpa [List.isEmpty_iff] using hemp.1
      · simpa [List.isEmpty_iff] using hemp.2
  · intro row v
    rfl

/-- Witness for C7's amended statement at concrete inputs. -/
theorem cookie_invariant_claim7_witness :
    ChromeLinux.row_to_cookie chromiumRowNoValueW noKeysDecryptor = none ∧
    (safariCookieW.domain ≠ [] ∧ safariCookieW.name ≠ []) ∧
    (FirefoxMac.row_to_cookie emptyFirefoxRow 17).isSome = true :=
  ⟨cookie_invariant_claim7_amended.1 chromiumRowNoValueW noKeysDecryptor rfl
      (Or.inl rfl),
   cookie_invariant_claim7_amended.2.1 safariRecordW safariCookieW (by decide),
   cookie_invariant_claim7_amended.2.2 emptyFirefoxRow 17⟩

set_option maxRecDepth 1000000 in
/-- C8 counterexample: `c8Ciphertext` decrypts under the empty-password key
(a candidate for the `v10` tag) to valid UTF-8 `hello`, yet the decryptor
returns `None`: the first candidate (the `peanuts`-derived default key)
produced invalid PKCS7 padding, and the `.ok()?` aborts without trying the
second key — the first candidate key whose decryption yields valid UTF-8 does
not determine the returned value. -/
theorem linux_decrypt_claim8_counterexample :
    (LinuxChromeCookieDecryptor.new none 0).decrypt ("v10".bytes ++ c8Ciphertext) =
      none ∧
    decrypt_aes_cbc c8Ciphertext (LinuxChromeCookieDecryptor.new none 0).empty_key =
      .ok "hello".bytes ∧
    utf8Valid (trim32 ((0 : Int) ≥ 24) "hello".bytes) = true := by
  refine ⟨by decide, by decide, by decide⟩

set_option maxRecDepth 1000000 in
/-- C8 as amended: for `v10` the candidates are the default (`peanuts`)
key then the empty-password key, and for `v11` the keyring key then the
empty-password key; a candidate wins as soon as its CBC decryption succeeds
and the (≥24-schema trimmed) plaintext is valid UTF-8; but when a candidate's
CBC decryption itself fails (invalid padding), the decryptor returns `None`
at once without trying the remaining key — the next key is only tried when
decryption succeeds and UTF-8 validation fails. -/
theorem linux_decrypt_claim8_amended :
    (∀ (d : LinuxChromeCookieDecryptor) (ev : List Nat),
        3 ≤ ev.length → ev.take 3 = "v10".bytes →
        d.decrypt ev =
          decrypt_aes_cbc_multi (ev.drop 3) [d.v10_key, d.empty_key]
            (d.meta_version ≥ 24)) ∧
    (∀ (d : LinuxChromeCookieDecryptor) (ev k : List Nat),
        3 ≤ ev.length → ev.take 3 = "v11".bytes → d.v11_key = some k →
        d.decrypt ev =
          decrypt_aes_cbc_multi (ev.drop 3) [k, d.empty_key]
            (d.meta_version ≥ 24)) ∧
    (∀ (keyringPassword : Option (List Nat)) (mv : Int),
        (LinuxChromeCookieDecryptor.new keyringPassword mv).v10_key =
            derive_key LINUX_V10_PASSWORD ∧
          (LinuxChromeCookieDecryptor.new keyringPassword mv).empty_key =
            derive_key []) ∧
    (∀ (ct k1 k2 : List Nat) (tr : Bool) (e : RurlError),
        decrypt_aes_cbc ct k1 = .error e →
        decrypt_aes_cbc_multi ct [k1, k2] tr = none) ∧
    (∀ (ct k1 k2 p1 : List Nat) (tr : Bool),
        decrypt_aes_cbc ct k1 = .ok p1 → utf8Valid (trim32 tr p1) = true →
        decrypt_aes_cbc_multi ct [k1, k2] tr = some (trim32 tr p1)) ∧
    (∀ (ct k1 k2 p1 : List Nat) (tr : Bool),
        decrypt_aes_cbc ct k1 = .ok p1 → utf8Valid (trim32 tr p1) = false →
        decrypt_aes_cbc_multi ct [k1, k2] tr =
          decrypt_aes_cbc_multi ct [k2] tr) := by
  refine ⟨?_, ?_, fun _ _ => ⟨rfl, rfl⟩, ?_, ?_, ?_⟩
  · intro d ev hlen htag
    unfold LinuxChromeCookieDecryptor.decrypt
    rw [if_neg (by omega), htag, if_pos rfl]
  · intro d ev k hlen htag hk
    unfold LinuxChromeCookieDecryptor.decrypt
    rw [if_neg (by omega), htag, if_neg (by decide), if_pos rfl, hk]
  · intro ct k1 k2 tr e he
    unfold decrypt_aes_cbc_multi
    rw [he]
  · intro ct k1 k2 p1 tr hok hu
    unfold decrypt_aes_cbc_multi
    rw [hok]
    simp only [hu, if_true]
  · intro ct k1 k2 p1 tr hok hu
    unfold decrypt_aes_cbc_multi
    rw [hok]
    simp only [hu, Bool.false_eq_true, if_false]
    rfl

set_option maxRecDepth 1000000 in
/-- Witness for C8's amended statement: under the real derived keys, the
default key's decryption of `c8Ciphertext` fails, so the two-key trial
returns `None`; with the key order reversed the empty key wins immediately
with `hello`. -/
theorem linux_decrypt_claim8_witness :
    decrypt_aes_cbc_multi c8Ciphertext
        [derive_key LINUX_V10_PASSWORD, derive_key []] false = none ∧
    decrypt_aes_cbc_multi c8Ciphertext
        [derive_key [], derive_key LINUX_V10_PASSWORD] false =
      some (trim32 false "hello".bytes) ∧
    (LinuxChromeCookieDecryptor.new none 0).decrypt ("v10".bytes ++ c8Ciphertext) =
      decrypt_aes_cbc_multi c8Ciphertext
        [derive_key LINUX_V10_PASSWORD, derive_key []]
        ((0 : Int) ≥ 24) :=
  ⟨linux_decrypt_claim8_amended.2.2.2.1 c8Ciphertext
      (derive_key LINUX_V10_PASSWORD) (derive_key []) false
      (.BrowserCookie "Failed to decrypt cookie") (by decide),
   linux_decrypt_claim8_amended.2.2.2.2.1 c8Ciphertext (derive_key [])
      (derive_key LINUX_V10_PASSWORD) "hello".bytes false (by decide)
      (by decide),
   linux_decrypt_claim8_amended.1 (LinuxChromeCookieDecryptor.new none 0)
      ("v10".bytes ++ c8Ciphertext) (by decide) (by decide)⟩

/-- C9 counterexample: a page declaring one record at offset 200, far outside
the 12-byte page, parses successfully to an unchanged (empty) store — the
out-of-page record offset is skipped, not turned into a `BrowserCookie`
error. -/
theorem safari_oob_claim9_counterexample :
    Safari.parse_safari_page oobOffsetPageW [] = .ok [] := by decide

/-- C9 as amended: a string-field offset at or beyond the end of its record
is a hard `BrowserCookie` error, and a record that fails to parse makes the
whole page (and file) fail; but a record offset at or beyond the end of its
page is silently skipped (`continue`), not an error. -/
theorem safari_oob_claim9_amended :
    (∀ (data : List Nat) (off : Nat),
        data.length ≤ off →
        Safari.read_cstring_at data off =
          .error (.BrowserCookie "Safari cookie offset out of bounds")) ∧
    (∀ (data : List Nat) (offsets : List Nat) (store : CookieStore),
        (∀ o ∈ offsets, data.length ≤ o) →
        Safari.parseRecordsAt data offsets store = .ok store) ∧
    (∀ (data : List Nat) (off : Nat) (rest : List Nat) (store : CookieStore)
        (e : RurlError),
        off < data.length →
        Safari.parse_safari_record (data.drop off) = .error e →
        Safari.parseRecordsAt data (off :: rest) store = .error e) := by
  refine ⟨?_, ?_, ?_⟩
  · intro data off hle
    unfold Safari.read_cstring_at
    rw [if_pos hle]
  · intro data offsets
    induction offsets with
    | nil => intro store _; rfl
    | cons o rest ih =>
      intro store hall
      unfold Safari.parseRecordsAt
      rw [if_pos (hall o (List.mem_cons_self o rest))]
      exact ih store fun x hx => hall x (List.mem_cons_of_mem o hx)
  · intro data off rest store e hlt herr
    unfold Safari.parseRecordsAt
    rw [if_neg (by omega)]
    rw [herr]
    rfl

/-- Witness for C9's amended statement at concrete inputs. -/
theorem safari_oob_claim9_witness :
    Safari.read_cstring_at [97, 0] 2 =
      .error (.BrowserCookie "Safari cookie offset out of bounds") ∧
    Safari.parseRecordsAt [1, 2] [5, 7] [] = .ok [] ∧
    Safari.parseRecordsAt [0] [0] [] =
      .error (.BrowserCookie "Safari cookies truncated") :=
  ⟨safari_oob_claim9_amended.1 [97, 0] 2 (by decide),
   safari_oob_claim9_amended.2.1 [1, 2] [5, 7] [] (by decide),
   safari_oob_claim9_amended.2.2 [0] 0 [] []
      (.BrowserCookie "Safari cookies truncated") (by decide) (by decide)⟩

/-- C10: on macOS, an encrypted value of at least 3 bytes whose tag is not
`v10` is returned whole as a UTF-8 string (`Some` of the raw bytes when they
are valid UTF-8, `None` otherwise), and any encrypted value shorter than 3
bytes decrypts to `None`. -/
theorem mac_decrypt_claim10 :
    (∀ (d : MacChromeCookieDecryptor) (ev : List Nat),
        ev.length < 3 → d.decrypt ev = none) ∧
    (∀ (d : MacChromeCookieDecryptor) (ev : List Nat),
        3 ≤ ev.length → ev.take 3 ≠ "v10".bytes →
        d.decrypt ev = (if utf8Valid ev then some ev else none)) := by
  constructor
  · intro d ev hlen
    unfold MacChromeCookieDecryptor.decrypt
    rw [if_pos hlen]
  · intro d ev hlen htag
    unfold MacChromeCookieDecryptor.decrypt
    rw [if_neg (by omega), if_neg htag]

/-- Witness for C10: a 1-byte value decrypts to `None`; the unknown-tagged
value `abc` comes back whole. -/
theorem mac_decrypt_claim10_witness :
    MacChromeCookieDecryptor.decrypt { key := none, meta_version := 0 } [1] =
      none ∧
    MacChromeCookieDecryptor.decrypt { key := none, meta_version := 0 }
        "abc".bytes =
      (if utf8Valid "abc".bytes then some "abc".bytes else none) :=
  ⟨mac_decrypt_claim10.1 { key := none, meta_version := 0 } [1] (by decide),
   mac_decrypt_claim10.2 { key := none, meta_version := 0 } "abc".bytes
      (by decide) (by decide)⟩

end Rurl
